import Mathlib

/-!
Verification of the sports-simulator core.

This file gives a shallow embedding, in Lean, of the simulator's core
algorithms, translated from the Python sources:

* `src/test/simulators/tennissimulator.py` — the tennis match state machine
  (`simulate_game`, `simulate_set`, `simulate_tie_break`, `simulate_match`)
  and the `PlayerStats` construction-time validation;
* `src/test/simulators/1/sim.py` — the correlation engine
  (`generate_simulations`);
* `src/nfl/sim/utils/summarize_simulation_results.py` — the summarizer;
* `src/nfl/sim/models.py` — the log-normal team-score generator.

Modelling conventions:

* Python floats are modelled as `ℚ` (or `ℝ` where the code computes with
  `log` / `sqrt` / `exp`); machine arithmetic is exact in the respective field.
* Randomness is made explicit: every random draw the Python code performs is
  an input to the embedded function (an "oracle"), so theorems quantify over
  all possible sequences of draws.
* Python's string labels `'player1'` / `'player2'` are modelled as `Bool`,
  with `true` standing for `'player1'`.
* Loops that in Python run until a win condition holds are embedded as
  structural recursion over the oracle list, returning `none` when the oracle
  is exhausted before the condition is met.
-/

namespace Tennis

/-- The fields of the `PlayerStats` dataclass
(`tennissimulator.py`, lines 20–43), in source order.  The first three are
string-typed, the rest are float-typed rate statistics. -/
inductive StatField where
  | Player
  | Surface
  | League
  | FirstServePercentage
  | AcePercentage
  | FirstServeWonPercentage
  | SecondServeWonPercentage
  | DoubleFaultPercentage
  | ServiceGamesWonPercentage
  | ReturnGamesWonPercentage
  | PointsWonPercentage
  | GamesWonPercentage
  | SetsWonPercentage
  | TieBreaksWonPercentage
  | BreakPointsSavedPercentage
  | BreakPointsConvertedPercentage
  | FirstServeReturnPointsWonPercentage
  | SecondServeReturnPointsWonPercentage
  | ReturnPointsWonPercentage
  | ServicePointsWonPercentage
  | BreakPointsFacedPerServiceGame
  | AceAgainstPercentage
  | AcesAgainstPerReturnGame
  | BreakPointChancesPerReturnGame
deriving DecidableEq

/-- The value stored in one field of a raw statistics record, as it arrives at
the `PlayerStats` constructor: `missing` models Python `None`, `str` a string
value, `num` a float value (numeric data reaches the constructor as pandas
float columns). -/
inductive RawValue where
  | missing
  | str (s : String)
  | num (q : ℚ)
deriving DecidableEq

/-- A raw statistics record: an assignment of a value to every dataclass
field (the keyword arguments of `PlayerStats(**data)`). -/
def RawStats := StatField → RawValue

/-- The `REQUIRED_FIELDS` class variable (`tennissimulator.py`, lines 46–71),
in source order. -/
def REQUIRED_FIELDS : List StatField :=
  [ .Player, .Surface, .League,
    .FirstServePercentage, .AcePercentage, .FirstServeWonPercentage,
    .SecondServeWonPercentage, .DoubleFaultPercentage,
    .ServiceGamesWonPercentage, .ReturnGamesWonPercentage,
    .PointsWonPercentage, .GamesWonPercentage, .SetsWonPercentage,
    .TieBreaksWonPercentage, .BreakPointsSavedPercentage,
    .BreakPointsConvertedPercentage, .FirstServeReturnPointsWonPercentage,
    .SecondServeReturnPointsWonPercentage, .ReturnPointsWonPercentage,
    .ServicePointsWonPercentage, .BreakPointsFacedPerServiceGame,
    .AceAgainstPercentage, .AcesAgainstPerReturnGame,
    .BreakPointChancesPerReturnGame ]

/-- The error raised by `PlayerStats.__post_init__` (a `ValueError` in the
source, called `InvalidPlayerStats` in the spec), identifying the offending
field. -/
inductive StatsError where
  | missingField (f : StatField)
  | invalidValue (f : StatField) (q : ℚ)
deriving DecidableEq

/-- One pass of the `__post_init__` validation loop
(`tennissimulator.py`, lines 77–90) over a list of fields: a `None` value
raises a missing-field error; a float value outside `[0, 1]` raises an
invalid-value error; a string value is only checked for presence. -/
def checkFields (r : RawStats) : List StatField → Except StatsError Unit
  | [] => .ok ()
  | f :: fs =>
    match r f with
    | .missing => .error (.missingField f)
    | .str _ => checkFields r fs
    | .num q => if 0 ≤ q ∧ q ≤ 1 then checkFields r fs else .error (.invalidValue f q)

/-- `PlayerStats.__post_init__` (`tennissimulator.py`, lines 73–90):
validate every required field of the record. -/
def postInit (r : RawStats) : Except StatsError Unit :=
  checkFields r REQUIRED_FIELDS

/-- The `PlayerStats` dataclass after successful validation
(`tennissimulator.py`, lines 15–43): three string fields and twenty-one
float-typed rate statistics. -/
structure PlayerStats where
  Player : String
  Surface : String
  League : String
  FirstServePercentage : ℚ
  AcePercentage : ℚ
  FirstServeWonPercentage : ℚ
  SecondServeWonPercentage : ℚ
  DoubleFaultPercentage : ℚ
  ServiceGamesWonPercentage : ℚ
  ReturnGamesWonPercentage : ℚ
  PointsWonPercentage : ℚ
  GamesWonPercentage : ℚ
  SetsWonPercentage : ℚ
  TieBreaksWonPercentage : ℚ
  BreakPointsSavedPercentage : ℚ
  BreakPointsConvertedPercentage : ℚ
  FirstServeReturnPointsWonPercentage : ℚ
  SecondServeReturnPointsWonPercentage : ℚ
  ReturnPointsWonPercentage : ℚ
  ServicePointsWonPercentage : ℚ
  BreakPointsFacedPerServiceGame : ℚ
  AceAgainstPercentage : ℚ
  AcesAgainstPerReturnGame : ℚ
  BreakPointChancesPerReturnGame : ℚ
deriving DecidableEq

/-- The probability that the server wins the game, from `simulate_game`
(`tennissimulator.py`, lines 330–342). -/
def serverWinProb (server returner : PlayerStats) : ℚ :=
  let server_effect := server.FirstServeWonPercentage * server.ServiceGamesWonPercentage
  let returner_effect := returner.ReturnPointsWonPercentage * returner.GamesWonPercentage
  let total := server_effect + returner_effect
  if total = 0 then 1 / 2 else server_effect / total

/-- The probability that the returner wins the game, from `simulate_game`
(`tennissimulator.py`, lines 330–342). -/
def returnerWinProb (server returner : PlayerStats) : ℚ :=
  let server_effect := server.FirstServeWonPercentage * server.ServiceGamesWonPercentage
  let returner_effect := returner.ReturnPointsWonPercentage * returner.GamesWonPercentage
  let total := server_effect + returner_effect
  if total = 0 then 1 / 2 else returner_effect / total

/-- The outcome of one call to `simulate_game` (`tennissimulator.py`,
lines 319–363), with the randomness made explicit: the returned winner label
(`true` = the label `'player1'`), and the binomial draws for aces and double
faults on the eight serves of the game. -/
structure GameDraw where
  winner : Bool
  aces : Nat
  doubleFaults : Nat
deriving DecidableEq

/-- One tie-break loop of `simulate_tie_break` (`tennissimulator.py`,
lines 452–490), consuming the oracle `ps` of point-winner labels.  `p1` and
`p2` are the running point counts.  The current server (which in the source
only selects whose statistics feed the random point draw) does not act on the
point counts, so it does not appear as state here; the server-selection
formula itself is embedded separately as `tieBreakCurrentServer`.  The final
point counts, internal to the Python function, are returned alongside the
winner so that theorems can speak about them. -/
def simulateTieBreakGo (p1 p2 : Nat) : List Bool → Option (Bool × Nat × Nat)
  | [] => none
  | w :: rest =>
    let p1' := if w then p1 + 1 else p1
    let p2' := if w then p2 else p2 + 1
    if (7 ≤ p1' ∨ 7 ≤ p2') ∧ 2 ≤ ((p1' : ℤ) - (p2' : ℤ)).natAbs then
      some (decide (p2' < p1'), p1', p2')
    else
      simulateTieBreakGo p1' p2' rest

/-- `simulate_tie_break` (`tennissimulator.py`, lines 440–490), starting from
a 0–0 tie-break. -/
def simulateTieBreak (ps : List Bool) : Option (Bool × Nat × Nat) :=
  simulateTieBreakGo 0 0 ps

/-- The server of tie-break point number `points_played` (1-based), from
`simulate_tie_break` (`tennissimulator.py`, lines 458–463).  Players are
numbered 1 and 2 as in the source. -/
def tieBreakCurrentServer (server_id : Nat) (points_played : Nat) : Nat :=
  if points_played = 1 then server_id
  else if ((points_played - 1) / 2) % 2 = 1 then 2 else 1

/-- Modelled from the spec (§4.5 tie-break model, and claim C4): the standard
tie-break serve rotation — the first server serves point 1, and thereafter
each player serves 2 consecutive points, alternating.  So the server of point
`p` is the first server when `(p / 2) % 2 = 0` and the other player when
`(p / 2) % 2 = 1` (points 2–3 go to the other player, 4–5 back to the first
server, and so on). -/
def standardTieBreakServer (server_id : Nat) (points_played : Nat) : Nat :=
  if (points_played / 2) % 2 = 1 then (if server_id = 1 then 2 else 1)
  else server_id

/-- The result of `simulate_set` (`tennissimulator.py`, lines 366–437).
`games` is the list of game-winner labels in order (`true` = `'player1'`),
including — exactly as in the source — the tie-break winner appended as one
extra entry when the set is decided by a tie-break.  `p1Games` / `p2Games`
are the final values of the internal game counters, and `tieBreak` is the
tie-break outcome with its final point counts; the Python dict omits these
three, but they are determined by the same computation and are returned here
so that theorems can speak about them. -/
structure SetResult where
  setWinner : Bool
  games : List Bool
  cleanSet : Bool
  aces : Nat
  doubleFaults : Nat
  p1Games : Nat
  p2Games : Nat
  tieBreak : Option (Bool × Nat × Nat)
deriving DecidableEq

/-- The set loop of `simulate_set` (`tennissimulator.py`, lines 385–437),
consuming the oracle `gs` of game draws (`tb` is the oracle for the
tie-break points, used at most once, when 6–6 is reached).  The server id
(`true` = player 1 serves) alternates every game but only selects whose
statistics feed the random game draw, so it acts on no other state. -/
def simulateSetGo (serverId : Bool) (p1 p2 : Nat) (gamesAcc : List Bool)
    (clean : Bool) (acesAcc dfAcc : Nat) (gs : List GameDraw) (tb : List Bool) :
    Option SetResult :=
  match gs with
  | [] => none
  | g :: rest =>
    let acesAcc' := acesAcc + g.aces
    let dfAcc' := dfAcc + g.doubleFaults
    let gamesAcc' := gamesAcc ++ [g.winner]
    let p1' := if g.winner then p1 + 1 else p1
    let p2' := if g.winner then p2 else p2 + 1
    let clean' := if g.winner then clean else false
    if (6 ≤ p1' ∨ 6 ≤ p2') ∧ 2 ≤ ((p1' : ℤ) - (p2' : ℤ)).natAbs then
      some { setWinner := decide (p2' < p1'), games := gamesAcc',
             cleanSet := clean', aces := acesAcc', doubleFaults := dfAcc',
             p1Games := p1', p2Games := p2', tieBreak := none }
    else if p1' = 6 ∧ p2' = 6 then
      match simulateTieBreak tb with
      | none => none
      | some (w, a, b) =>
        let p1t := if w then p1' + 1 else p1'
        let p2t := if w then p2' else p2' + 1
        some { setWinner := decide (p2t < p1t), games := gamesAcc' ++ [w],
               cleanSet := false, aces := acesAcc', doubleFaults := dfAcc',
               p1Games := p1t, p2Games := p2t, tieBreak := some (w, a, b) }
    else
      simulateSetGo (!serverId) p1' p2' gamesAcc' clean' acesAcc' dfAcc' rest tb

/-- `simulate_set` (`tennissimulator.py`, lines 366–437), started at 0–0 with
`clean_set = True`. -/
def simulateSet (serverId : Bool) (gs : List GameDraw) (tb : List Bool) :
    Option SetResult :=
  simulateSetGo serverId 0 0 [] true 0 0 gs tb

/-- The games of the set that were won by the eventual set winner. -/
def winnerGames (r : SetResult) : Nat :=
  if r.setWinner then r.p1Games else r.p2Games

/-- The games of the set that were won by the eventual set loser. -/
def loserGames (r : SetResult) : Nat :=
  if r.setWinner then r.p2Games else r.p1Games

/-- The per-player count-based statistics accumulated by `simulate_match`
(`tennissimulator.py`, lines 516–544), with the initial values of the
source's dict literal. -/
structure FantasyCounts where
  aces : Nat := 0
  doubleFaults : Nat := 0
  gamesWon : Nat := 0
  gamesLost : Nat := 0
  setsWon : Nat := 0
  setsLost : Nat := 0
  breaks : Nat := 0
  cleanSet : Bool := false
  straightSets : Bool := false
  noDoubleFault : Bool := true
  tenPlusAces : Bool := false
  fifteenPlusAces : Bool := false
deriving DecidableEq

/-- One player's share of the per-set statistics update of the
`simulate_match` loop (`tennissimulator.py`, lines 556–607).  The source
updates both players with the same winner-symmetric block; here `won` says
whether this player won the set, `gw`/`gl` are this player's games
won/lost in the set (`games.count` of the player's own/opposite label),
and `setAces`/`setDfs`/`setClean` are the set's ace count, double-fault
count and clean-set flag.  Each stage mirrors the corresponding source
statement: set counts; game counts; breaks (the source adds the full games
won, line 574); aces and double faults (added to the set winner only,
lines 578–581); the no-double-fault flag (the source's disjunctive condition
at lines 584–589 reduces to: the set winner loses the flag when the set had
any double fault); the 10+/15+ ace `elif` checked against the just-updated
ace count (lines 592–600); and the clean-set flag, granted to the set winner
(lines 603–607).  The stages are the named `upd...` functions below,
composed in source order by `updateCountsOneSide`.  Set-count stage
(lines 557–564): -/
def updSets (c : FantasyCounts) (won : Bool) : FantasyCounts :=
  if won then { c with setsWon := c.setsWon + 1 }
  else { c with setsLost := c.setsLost + 1 }

/-- Game-count stage of the per-set update (lines 567–570). -/
def updGames (c : FantasyCounts) (gw gl : Nat) : FantasyCounts :=
  { c with gamesWon := c.gamesWon + gw, gamesLost := c.gamesLost + gl }

/-- Breaks stage of the per-set update (lines 573–575): the source adds the
player's full games-won count of the set. -/
def updBreaks (c : FantasyCounts) (gw : Nat) : FantasyCounts :=
  { c with breaks := c.breaks + gw }

/-- Ace/double-fault stage of the per-set update (lines 578–581): added for
the set winner only. -/
def updAcesFaults (c : FantasyCounts) (won : Bool) (setAces setDfs : Nat) :
    FantasyCounts :=
  { c with aces := c.aces + (if won then setAces else 0),
           doubleFaults := c.doubleFaults + (if won then setDfs else 0) }

/-- No-double-fault stage (lines 584–589): the source's disjunctive condition
reduces to — the set winner loses the flag when the set had any double
fault. -/
def updNoDoubleFault (c : FantasyCounts) (won : Bool) (setDfs : Nat) :
    FantasyCounts :=
  if won ∧ 0 < setDfs then { c with noDoubleFault := false } else c

/-- 10+/15+ ace stage (lines 592–600): an `elif` checked against the
just-updated cumulative ace count. -/
def updAceBonus (c : FantasyCounts) : FantasyCounts :=
  if 15 ≤ c.aces then { c with fifteenPlusAces := true }
  else if 10 ≤ c.aces then { c with tenPlusAces := true } else c

/-- Clean-set stage (lines 603–607): granted to the set winner. -/
def updCleanSet (c : FantasyCounts) (setClean won : Bool) : FantasyCounts :=
  if setClean ∧ won then { c with cleanSet := true } else c

def updateCountsOneSide (c : FantasyCounts) (won : Bool) (gw gl : Nat)
    (setAces setDfs : Nat) (setClean : Bool) : FantasyCounts :=
  updCleanSet
    (updAceBonus
      (updNoDoubleFault
        (updAcesFaults (updBreaks (updGames (updSets c won) gw gl) gw)
          won setAces setDfs)
        won setDfs))
    setClean won

/-- The per-set statistics update of the `simulate_match` loop
(`tennissimulator.py`, lines 556–607), applied to both players' counts after
one set result: player 1's label in the game list is `true`, player 2's is
`false`, and player 2 is the winner exactly when player 1 is not. -/
def updateAfterSet (c1 c2 : FantasyCounts) (r : SetResult) :
    FantasyCounts × FantasyCounts :=
  (updateCountsOneSide c1 r.setWinner (r.games.count true) (r.games.count false)
     r.aces r.doubleFaults r.cleanSet,
   updateCountsOneSide c2 (!r.setWinner) (r.games.count false) (r.games.count true)
     r.aces r.doubleFaults r.cleanSet)

/-- The result of `simulate_match` (`tennissimulator.py`, lines 493–692):
the match winner, the per-set results, and both players' final cumulative
counting statistics (the source feeds the counts into
`calculate_fantasy_points`; they are returned here directly so that theorems
can speak about them). -/
structure MatchResult where
  winner : Bool
  sets : List SetResult
  counts1 : FantasyCounts
  counts2 : FantasyCounts
deriving DecidableEq

/-- The match loop of `simulate_match` (`tennissimulator.py`, lines 548–691),
consuming one `(game draws, tie-break points)` oracle per set.  The server id
for the first game of each set alternates between sets, as in the source
(line 691). -/
def simulateMatchGo (best_of : Nat) (serverId : Bool) (p1Sets p2Sets : Nat)
    (c1 c2 : FantasyCounts) (setsAcc : List SetResult)
    (oracle : List (List GameDraw × List Bool)) : Option MatchResult :=
  match oracle with
  | [] => none
  | (gs, tb) :: rest =>
    match simulateSet serverId gs tb with
    | none => none
    | some r =>
      let p1Sets' := if r.setWinner then p1Sets + 1 else p1Sets
      let p2Sets' := if r.setWinner then p2Sets else p2Sets + 1
      let cs := updateAfterSet c1 c2 r
      let setsAcc' := setsAcc ++ [r]
      let required := best_of / 2 + 1
      if p1Sets' = required ∨ p2Sets' = required then
        let w := decide (p2Sets' < p1Sets')
        let straight := (p1Sets' = required ∧ p2Sets' = 0) ∨
                        (p2Sets' = required ∧ p1Sets' = 0)
        let c1f := if straight ∧ w then { cs.1 with straightSets := true } else cs.1
        let c2f := if straight ∧ ¬w then { cs.2 with straightSets := true } else cs.2
        some { winner := w, sets := setsAcc', counts1 := c1f, counts2 := c2f }
      else
        simulateMatchGo best_of (!serverId) p1Sets' p2Sets' cs.1 cs.2 setsAcc' rest

/-- `simulate_match` (`tennissimulator.py`, lines 493–692): player 1 serves
first, set and count state start at the source's initial values. -/
def simulateMatch (best_of : Nat) (oracle : List (List GameDraw × List Bool)) :
    Option MatchResult :=
  simulateMatchGo best_of true 0 0 {} {} [] oracle

/-- The server of game number `i` (0-based) of a set whose first game is
served by `initialServer`: the server strictly alternates every game
(`tennissimulator.py`, line 437). -/
def serverOfGame (initialServer : Bool) (i : Nat) : Bool :=
  if i % 2 = 0 then initialServer else !initialServer

/-- Modelled from the spec (claim C5): the number of games in a set's game
list that `who` won while the opponent was serving, with the server
alternating from the set's initial server.  (A tie-break entry appended to a
game list has no serving player; this count reads every list entry as a
served game, which is exact for sets decided without a tie-break.) -/
def gamesWonOnReturn (initialServer : Bool) (games : List Bool) (who : Bool) : Nat :=
  (games.enum.filter
    (fun ig => ig.2 = who ∧ serverOfGame initialServer ig.1 ≠ who)).length

/-- Modelled from the spec (claim C5): the total number of games `who` won
while the opponent was serving over a match's sets, where set `k` (0-based)
opens with player 1 serving exactly when `k` is even
(`tennissimulator.py`, lines 512 and 691). -/
def matchGamesWonOnReturn (sets : List SetResult) (who : Bool) : Nat :=
  (sets.enum.map
    (fun ks => gamesWonOnReturn (decide (ks.1 % 2 = 0)) ks.2.games who)).sum

/-- A concrete match oracle: two sets of six straight games won by player 1
(no aces, no double faults), no tie-breaks. -/
def sampleMatchOracle : List (List GameDraw × List Bool) :=
  [(List.replicate 6 ⟨true, 0, 0⟩, []), (List.replicate 6 ⟨true, 0, 0⟩, [])]

/-- The set result produced by six straight player-1 games. -/
def sampleSetResult : SetResult :=
  { setWinner := true, games := List.replicate 6 true, cleanSet := true,
    aces := 0, doubleFaults := 0, p1Games := 6, p2Games := 0, tieBreak := none }

/-- The match result of `sampleMatchOracle` under `best_of = 3`. -/
def sampleMatchResult : MatchResult :=
  { winner := true,
    sets := [sampleSetResult, sampleSetResult],
    counts1 := { aces := 0, doubleFaults := 0, gamesWon := 12, gamesLost := 0,
                 setsWon := 2, setsLost := 0, breaks := 12, cleanSet := true,
                 straightSets := true, noDoubleFault := true,
                 tenPlusAces := false, fifteenPlusAces := false },
    counts2 := { aces := 0, doubleFaults := 0, gamesWon := 0, gamesLost := 12,
                 setsWon := 0, setsLost := 2, breaks := 0, cleanSet := false,
                 straightSets := false, noDoubleFault := true,
                 tenPlusAces := false, fifteenPlusAces := false } }

end Tennis

namespace CorrSim

/-- One quarterback row of the projection frame, as consumed by one trial of
`generate_simulations` (`sim.py`, lines 31–36), with its random draw made
explicit: `draw` is the realization of `np.random.normal(0, StdDev)`. -/
structure QBRow where
  player : String
  team : String
  base : ℚ
  draw : ℚ
deriving DecidableEq

/-- One non-quarterback row of the projection frame, as consumed by one trial
of `generate_simulations` (`sim.py`, lines 39–55), with its independent
random draw made explicit. -/
structure SkillRow where
  player : String
  team : String
  position : String
  base : ℚ
  draw : ℚ
deriving DecidableEq

/-- Python dict assignment `d[k] = v`, on dicts modelled as partial maps. -/
def dinsert (d : String → Option ℚ) (k : String) (v : ℚ) : String → Option ℚ :=
  fun x => if x = k then some v else d x

/-- The `qb_variance_dict` built by the QB loop (`sim.py`, lines 31–36),
one dict assignment per QB row: the team maps to the QB's draw scaled by the
correlation factor. -/
def buildQBShocksGo (corr : ℚ) (d : String → Option ℚ) :
    List QBRow → (String → Option ℚ)
  | [] => d
  | qb :: rest => buildQBShocksGo corr (dinsert d qb.team (qb.draw * corr)) rest

/-- The full `qb_variance_dict` of one trial, built from the empty dict. -/
def buildQBShocks (corr : ℚ) (qbs : List QBRow) : String → Option ℚ :=
  buildQBShocksGo corr (fun _ => none) qbs

/-- The `sim_result` entries written by the QB loop (`sim.py`, line 36):
each QB's own outcome is `max(0, base + draw)` (the unscaled draw). -/
def applyQBRows (res : String → Option ℚ) : List QBRow → (String → Option ℚ)
  | [] => res
  | qb :: rest => applyQBRows (dinsert res qb.player (max 0 (qb.base + qb.draw))) rest

/-- The usage share used for a position (`sim.py`, line 49):
`player_usage.get(position, 0.2)`. -/
def usageShare (usage : String → Option ℚ) (pos : String) : ℚ :=
  (usage pos).getD (1 / 5)

/-- The adjusted projection of one non-QB row (`sim.py`, lines 47–53):
with a team shock present, `base + team_shock * usage_share + independent
draw`; otherwise `base + independent draw`. -/
def skillAdjusted (shocks : String → Option ℚ) (usage : String → Option ℚ)
    (p : SkillRow) : ℚ :=
  match shocks p.team with
  | some qbv => p.base + qbv * usageShare usage p.position + p.draw
  | none => p.base + p.draw

/-- The non-QB loop (`sim.py`, lines 39–55): each player's `sim_result` entry
is the adjusted projection clamped below at 0 (`max(0, adjusted)`,
line 55). -/
def applySkillRows (shocks : String → Option ℚ) (usage : String → Option ℚ)
    (res : String → Option ℚ) : List SkillRow → (String → Option ℚ)
  | [] => res
  | p :: rest =>
    applySkillRows shocks usage
      (dinsert res p.player (max 0 (skillAdjusted shocks usage p))) rest

/-- One trial of `generate_simulations` (`sim.py`, lines 26–55): build the
QB shock dict and the QB outcomes, then process every non-QB row. -/
def generateTrial (corr : ℚ) (usage : String → Option ℚ)
    (qbs : List QBRow) (players : List SkillRow) : String → Option ℚ :=
  applySkillRows (buildQBShocks corr qbs) usage
    (applyQBRows (fun _ => none) qbs) players

/-- `np.sign` on rationals, as used by the alignment bookkeeping
(`sim.py`, line 59). -/
def qsign (x : ℚ) : ℤ :=
  if 0 < x then 1 else if x < 0 then -1 else 0

end CorrSim

namespace NflSummary

/-- One set of player percentiles, as produced by
`summarize_simulation_results` (`summarize_simulation_results.py`,
lines 28–35). -/
structure PercentileSet where
  p25 : ℚ
  p50 : ℚ
  p75 : ℚ
  p85 : ℚ
  p95 : ℚ
  p99 : ℚ
deriving DecidableEq

/-- `np.percentile(points, q)` with the default linear interpolation between
order statistics: for a sample of size `n` sorted ascending, the value at
fractional rank `h = (n - 1) * q / 100` is interpolated between the entries
at ranks `floor h` and `ceil h`. -/
def percentile (points : List ℚ) (q : ℚ) : ℚ :=
  let s := List.insertionSort (· ≤ ·) points
  let n := s.length
  let h := ((n : ℚ) - 1) * q / 100
  let lo := (⌊h⌋).toNat
  let hi := (⌈h⌉).toNat
  let a := s.getD lo 0
  let b := s.getD hi 0
  a + (h - (lo : ℚ)) * (b - a)

/-- The six percentiles computed for one player
(`summarize_simulation_results.py`, lines 28–35). -/
def percentileSet (points : List ℚ) : PercentileSet :=
  { p25 := percentile points 25, p50 := percentile points 50,
    p75 := percentile points 75, p85 := percentile points 85,
    p95 := percentile points 95, p99 := percentile points 99 }

/-- The player-percentiles loop of `summarize_simulation_results`
(`summarize_simulation_results.py`, lines 25–37): a player with a nonempty
points list gets the six percentiles; a player with an empty points list is
skipped (`if points:` on a Python list tests non-emptiness). -/
def playerPercentiles (playerPoints : List (String × List ℚ)) :
    List (String × PercentileSet) :=
  playerPoints.filterMap
    (fun pp => if pp.2 = [] then none else some (pp.1, percentileSet pp.2))

/-- Association-list lookup with Python-dict key semantics (first match;
the summarizer iterates a dict, whose keys are unique). -/
def lookupA (k : String) : List (String × α) → Option α
  | [] => none
  | e :: rest => if e.1 = k then some e.2 else lookupA k rest

end NflSummary

namespace TeamScores

/-- The `mu` parameter of `Team.simulate_scores` (`models.py`, line 26):
`np.log(implied_total) - 0.5 * np.log(1 + variability**2)`. -/
noncomputable def mu (implied_total variability : ℝ) : ℝ :=
  Real.log implied_total - 0.5 * Real.log (1 + variability ^ 2)

/-- The `sigma` parameter of `Team.simulate_scores` (`models.py`, line 27):
`np.sqrt(np.log(1 + variability**2))`. -/
noncomputable def sigma (variability : ℝ) : ℝ :=
  Real.sqrt (Real.log (1 + variability ^ 2))

/-- One sample of `np.random.lognormal(mean=mu, sigma=sigma)`
(`models.py`, line 28), with the underlying standard-normal draw `z` made
explicit: the sample is `exp(mu + sigma * z)`. -/
noncomputable def sampleScore (implied_total variability z : ℝ) : ℝ :=
  Real.exp (mu implied_total variability + sigma variability * z)

/-- Modelled from the spec (§4.1): `sigma = sqrt(ln(1 + v^2))`. -/
noncomputable def sigmaSpec (v : ℝ) : ℝ :=
  Real.sqrt (Real.log (1 + v ^ 2))

/-- Modelled from the spec (§4.1): `mu = ln(m) - 0.5 * sigma^2`. -/
noncomputable def muSpec (m v : ℝ) : ℝ :=
  Real.log m - 0.5 * (sigmaSpec v) ^ 2

end TeamScores

namespace Tennis

theorem checkFields_ok_iff (r : RawStats) (fs : List StatField) :
    checkFields r fs = .ok () ↔
      ∀ f ∈ fs, r f ≠ RawValue.missing ∧
        ∀ q, r f = RawValue.num q → 0 ≤ q ∧ q ≤ 1 := by
  induction fs with
  | nil => simp [checkFields]
  | cons f fs ih =>
    simp only [checkFields, List.forall_mem_cons]
    cases h : r f with
    | missing => simp [h]
    | str s => simp [h, ih]
    | num q =>
      by_cases hq : 0 ≤ q ∧ q ≤ 1
      · simp [h, hq, ih]
      · simp only [h, if_neg hq]
        constructor
        · intro hcontra; cases hcontra
        · rintro ⟨⟨-, hval⟩, -⟩
          exact absurd (hval q rfl) hq

/-- C8: `PlayerStats` construction fails with an `InvalidPlayerStats` error if
and only if some required field of the record is missing or some float-typed
rate-statistic value lies outside `[0, 1]`; equivalently, validation succeeds
exactly for records with every required field present and every float value
in `[0, 1]`.  The validation is `__post_init__`, run by the dataclass
constructor before any simulation step touches the entity. -/
theorem postInit_ok_iff (r : RawStats) :
    postInit r = .ok () ↔
      ∀ f ∈ REQUIRED_FIELDS, r f ≠ RawValue.missing ∧
        ∀ q, r f = RawValue.num q → 0 ≤ q ∧ q ≤ 1 :=
  checkFields_ok_iff r REQUIRED_FIELDS

/-- C2: the single-game win probability for the server is
`server_effect / (server_effect + returner_effect)`, where `server_effect`
is the server's `FirstServeWonPercentage * ServiceGamesWonPercentage` and
`returner_effect` is the returner's
`ReturnPointsWonPercentage * GamesWonPercentage`; when the two effects sum
to zero, each side gets probability `1/2`. -/
theorem serverWinProb_spec (s r : PlayerStats) :
    (s.FirstServeWonPercentage * s.ServiceGamesWonPercentage
        + r.ReturnPointsWonPercentage * r.GamesWonPercentage = 0 →
      serverWinProb s r = 1 / 2 ∧ returnerWinProb s r = 1 / 2) ∧
    (s.FirstServeWonPercentage * s.ServiceGamesWonPercentage
        + r.ReturnPointsWonPercentage * r.GamesWonPercentage ≠ 0 →
      serverWinProb s r
        = s.FirstServeWonPercentage * s.ServiceGamesWonPercentage
          / (s.FirstServeWonPercentage * s.ServiceGamesWonPercentage
             + r.ReturnPointsWonPercentage * r.GamesWonPercentage) ∧
      returnerWinProb s r
        = r.ReturnPointsWonPercentage * r.GamesWonPercentage
          / (s.FirstServeWonPercentage * s.ServiceGamesWonPercentage
             + r.ReturnPointsWonPercentage * r.GamesWonPercentage)) := by
  constructor <;> intro h <;>
    simp [serverWinProb, returnerWinProb, h]

/-- C4 (code bug): the tie-break serve rotation of the code disagrees with
the standard rotation.  With player 1 serving the first point, the code has
player 1 also serve point 2, where the standard rotation hands points 2 and 3
to player 2; with player 2 serving the first point, the code has player 2
serve point 3, where the standard rotation gives it to player 1 (after
point 1 the code's formula ignores the initial server entirely). -/
theorem tieBreakServer_deviates_from_standard :
    tieBreakCurrentServer 1 2 = 1 ∧ standardTieBreakServer 1 2 = 2 ∧
    tieBreakCurrentServer 2 3 = 2 ∧ standardTieBreakServer 2 3 = 1 := by
  decide

end Tennis

namespace TeamScores

/-- C9: for target mean `m > 0` and variability `v > 0`, the code's
log-normal parameters agree with the spec's derivation —
`sigma = sqrt(ln(1 + v^2))` and `mu = ln(m) - 0.5 * sigma^2` — so that
`exp(mu + sigma^2 / 2) = m` (mean matching in expectation) and every sample
`exp(mu + sigma * z)` is strictly positive. -/
theorem lognormal_params_spec (m v : ℝ) (hm : 0 < m) (hv : 0 < v) :
    sigma v = sigmaSpec v ∧ mu m v = muSpec m v ∧
    Real.exp (mu m v + (sigma v) ^ 2 / 2) = m ∧
    ∀ z : ℝ, 0 < sampleScore m v z := by
  have hL : 0 ≤ Real.log (1 + v ^ 2) := Real.log_nonneg (by nlinarith)
  have hsq : (sigma v) ^ 2 = Real.log (1 + v ^ 2) := Real.sq_sqrt hL
  refine ⟨rfl, ?_, ?_, fun z => Real.exp_pos _⟩
  · have : (sigmaSpec v) ^ 2 = Real.log (1 + v ^ 2) := Real.sq_sqrt hL
    rw [mu, muSpec, this]
  · have harg : mu m v + (sigma v) ^ 2 / 2 = Real.log m := by
      rw [hsq, mu]; ring
    rw [harg, Real.exp_log hm]

/-- Witness for C9: the mean-matching identity and sample positivity at the
concrete input `m = 2`, `v = 1`, `z = -3`. -/
theorem lognormal_params_spec_witness :
    Real.exp (mu 2 1 + (sigma 1) ^ 2 / 2) = 2 ∧ 0 < sampleScore 2 1 (-3) :=
  ⟨(lognormal_params_spec 2 1 (by norm_num) (by norm_num)).2.2.1,
   (lognormal_params_spec 2 1 (by norm_num) (by norm_num)).2.2.2 (-3)⟩

end TeamScores

namespace CorrSim

/-- C6 counterexample: with driver shock `1`, correlation factor `1 > 0` and
usage share `1`, the independent draw `-2` makes the teammate's deviation
from base negative while the driver's shock is positive — so the claimed
sign alignment does not hold for every value of the independent draw. -/
theorem alignment_not_deterministic :
    0 < (1 : ℚ) ∧
    usageShare (fun _ => some 1) "WR1" = 1 ∧
    qsign (skillAdjusted (fun _ => some (1 * 1)) (fun _ => some 1)
        ⟨"wr", "A", "WR1", 10, -2⟩ - 10) = -1 ∧
    qsign 1 = 1 ∧ (-1 : ℤ) ≠ 1 := by
  refine ⟨by norm_num, rfl, ?_, by decide, by decide⟩
  show qsign ((10 : ℚ) + 1 * 1 * 1 + -2 - 10) = -1
  norm_num [qsign]

/-- C6 (amended): the teammate's deviation direction matches the driver's
shock direction whenever the independent draw is smaller in magnitude than
`correlation_factor * |driver shock|` (with usage share `1` and a positive
correlation factor); for larger opposing draws the alignment can fail, so it
is not deterministic over all draws. -/
theorem alignment_when_draw_small (shocks usage : String → Option ℚ)
    (p : SkillRow) (shock corr : ℚ)
    (hs : shocks p.team = some (shock * corr))
    (hu : usageShare usage p.position = 1)
    (hc : 0 < corr) (hd : |p.draw| < corr * |shock|) :
    qsign (skillAdjusted shocks usage p - p.base) = qsign shock := by
  have hdev : skillAdjusted shocks usage p - p.base = shock * corr + p.draw := by
    simp only [skillAdjusted, hs, hu]
    ring
  rw [hdev]
  rcases lt_trichotomy shock 0 with hneg | hzero | hpos
  · have habs : |shock| = -shock := abs_of_neg hneg
    rw [habs] at hd
    have h1 : p.draw < corr * -shock := (abs_lt.mp hd).2
    have h2 : shock * corr + p.draw < 0 := by nlinarith
    have h3 : ¬ (0 < shock * corr + p.draw) := by linarith
    simp [qsign, h2, h3, hneg, asymm hneg]
  · subst hzero
    simp only [abs_zero, mul_zero] at hd
    exact absurd hd (by simp [abs_nonneg])
  · have habs : |shock| = shock := abs_of_pos hpos
    rw [habs] at hd
    have h1 : -(corr * shock) < p.draw := (abs_lt.mp hd).1
    have h2 : 0 < shock * corr + p.draw := by nlinarith
    simp [qsign, h2, hpos]

/-- Witness for C6 (amended) at shock `-1`, correlation factor `2`, usage
share `1`, base `5`, independent draw `1`. -/
theorem alignment_when_draw_small_witness :
    qsign (skillAdjusted (fun _ => some ((-1) * 2)) (fun _ => some 1)
        ⟨"wr", "A", "WR1", 5, 1⟩ - 5) = qsign (-1) :=
  alignment_when_draw_small (fun _ => some ((-1) * 2)) (fun _ => some 1)
    ⟨"wr", "A", "WR1", 5, 1⟩ (-1) 2 rfl rfl (by norm_num)
    (by rw [show |(1 : ℚ)| = 1 from abs_one, show |(-1 : ℚ)| = 1 by norm_num]
        norm_num)

theorem applySkillRows_of_not_mem (shocks usage : String → Option ℚ) :
    ∀ (players : List SkillRow) (res : String → Option ℚ) (x : String),
      x ∉ players.map SkillRow.player →
      applySkillRows shocks usage res players x = res x := by
  intro players
  induction players with
  | nil => intro res x _; rfl
  | cons p rest ih =>
    intro res x h
    simp only [List.map_cons, List.mem_cons, not_or] at h
    obtain ⟨h1, h2⟩ := h
    simp only [applySkillRows]
    rw [ih _ _ h2]
    simp [dinsert, h1]

theorem applySkillRows_lookup (shocks usage : String → Option ℚ) :
    ∀ (players : List SkillRow) (res : String → Option ℚ) (p : SkillRow),
      p ∈ players → (players.map SkillRow.player).Nodup →
      applySkillRows shocks usage res players p.player
        = some (max 0 (skillAdjusted shocks usage p)) := by
  intro players
  induction players with
  | nil => intro res p hp _; exact absurd hp (List.not_mem_nil p)
  | cons q rest ih =>
    intro res p hp hnd
    simp only [List.map_cons, List.nodup_cons] at hnd
    obtain ⟨hmem, hnd'⟩ := hnd
    rcases List.mem_cons.mp hp with rfl | hp'
    · simp only [applySkillRows]
      rw [applySkillRows_of_not_mem shocks usage rest _ p.player hmem]
      simp [dinsert]
    · simp only [applySkillRows]
      exact ih _ p hp' hnd'

theorem buildQBShocksGo_lookup (corr : ℚ) :
    ∀ (qbs : List QBRow) (d : String → Option ℚ) (t : String) (s : ℚ),
      buildQBShocksGo corr d qbs t = some s →
      (∃ qb ∈ qbs, qb.team = t ∧ s = qb.draw * corr) ∨ d t = some s := by
  intro qbs
  induction qbs with
  | nil => intro d t s h; exact Or.inr h
  | cons qb rest ih =>
    intro d t s h
    rcases ih _ t s h with hl | hr
    · obtain ⟨q, hq, ht, hs⟩ := hl
      exact Or.inl ⟨q, List.mem_cons_of_mem _ hq, ht, hs⟩
    · by_cases he : t = qb.team
      · subst he
        rw [show dinsert d qb.team (qb.draw * corr) qb.team
              = some (qb.draw * corr) from by simp [dinsert]] at hr
        injection hr with hval
        exact Or.inl ⟨qb, List.mem_cons_self qb rest, rfl, hval.symm⟩
      · right
        simpa [dinsert, he] using hr

/-- C3: in one trial, a non-QB player whose team has an entry in the QB
shock dict gets the outcome `max(0, base + team_shock * usage_share +
independent draw)`, where every team shock in the dict is some QB's
independent draw scaled by the correlation factor and the usage share falls
back to the constant `0.2` when the usage map lacks the position; a player
whose team has no entry gets `max(0, base + independent draw)`. -/
theorem generateTrial_outcome (corr : ℚ) (usage : String → Option ℚ)
    (qbs : List QBRow) (players : List SkillRow) (p : SkillRow)
    (hp : p ∈ players) (hnd : (players.map SkillRow.player).Nodup) :
    (∀ t s, buildQBShocks corr qbs t = some s →
      ∃ qb ∈ qbs, qb.team = t ∧ s = qb.draw * corr) ∧
    generateTrial corr usage qbs players p.player
      = some (match buildQBShocks corr qbs p.team with
              | some ts => max 0 (p.base + ts * usageShare usage p.position + p.draw)
              | none => max 0 (p.base + p.draw)) := by
  constructor
  · intro t s h
    rcases buildQBShocksGo_lookup corr qbs _ t s h with hl | hr
    · exact hl
    · exact absurd hr (by simp)
  · rw [generateTrial,
        applySkillRows_lookup (buildQBShocks corr qbs) usage players
          (applyQBRows (fun _ => none) qbs) p hp hnd]
    cases hcase : buildQBShocks corr qbs p.team <;>
      simp [skillAdjusted, hcase]

/-- Witness for C3: one QB on team `A` with draw 3, correlation factor 2
(team shock 6), one wide receiver on team `A` with usage share `1/2`, base
10 and independent draw 1; the receiver's outcome is
`max(0, 10 + 6 * (1/2) + 1) = 14`. -/
theorem generateTrial_outcome_witness :
    generateTrial 2 (fun pos => if pos = "WR1" then some (1 / 2) else none)
      [⟨"qb1", "A", 20, 3⟩] [⟨"wr", "A", "WR1", 10, 1⟩] "wr" = some 14 := by
  have h := (generateTrial_outcome 2
    (fun pos => if pos = "WR1" then some (1 / 2) else none)
    [⟨"qb1", "A", 20, 3⟩] [⟨"wr", "A", "WR1", 10, 1⟩] ⟨"wr", "A", "WR1", 10, 1⟩
    (by simp) (by simp)).2
  rw [h]
  norm_num [buildQBShocks, buildQBShocksGo, dinsert, usageShare]

end CorrSim

namespace NflSummary

theorem lookupA_playerPercentiles_of_not_mem (name : String)
    (pp : List (String × List ℚ)) (h : name ∉ pp.map Prod.fst) :
    lookupA name (playerPercentiles pp) = none := by
  induction pp with
  | nil => rfl
  | cons e rest ih =>
    simp only [List.map_cons, List.mem_cons, not_or] at h
    obtain ⟨hne, hrest⟩ := h
    simp only [playerPercentiles, List.filterMap_cons]
    by_cases he : e.2 = []
    · simpa [he] using ih hrest
    · simpa [he, lookupA, Ne.symm hne] using ih hrest

/-- C7 counterexample: a player with exactly one trial value is present in
the percentile summary — with all six percentiles equal to that single value
— rather than absent as the claim states. -/
theorem singleValue_player_is_present :
    lookupA "p" (playerPercentiles [("p", [5])]) = some (percentileSet [5]) ∧
    percentileSet [5] = ⟨5, 5, 5, 5, 5, 5⟩ := by
  refine ⟨rfl, ?_⟩
  have hp : ∀ q : ℚ, percentile [5] q = 5 := by
    intro q
    simp [percentile, List.insertionSort, List.orderedInsert, List.getD]
  simp only [percentileSet, hp]

/-- C7 (amended): a player is absent from the percentile summary exactly when
it has zero trial values; every player with at least one value receives the
percentile set with entries 25, 50, 75, 85, 95 and 99. -/
theorem playerPercentiles_lookup (pp : List (String × List ℚ)) (name : String)
    (hnd : (pp.map Prod.fst).Nodup) :
    lookupA name (playerPercentiles pp)
      = (lookupA name pp).bind
          (fun pts => if pts = [] then none else some (percentileSet pts)) := by
  induction pp with
  | nil => rfl
  | cons e rest ih =>
    simp only [List.map_cons, List.nodup_cons] at hnd
    obtain ⟨hmem, hnd'⟩ := hnd
    have hstep : playerPercentiles (e :: rest)
        = if e.2 = [] then playerPercentiles rest
          else (e.1, percentileSet e.2) :: playerPercentiles rest := by
      simp only [playerPercentiles, List.filterMap_cons]
      by_cases he : e.2 = [] <;> simp [he, playerPercentiles]
    by_cases he : e.2 = []
    · rw [hstep, if_pos he]
      by_cases hk : e.1 = name
      · subst hk
        rw [lookupA_playerPercentiles_of_not_mem e.1 rest hmem,
            show lookupA e.1 (e :: rest) = some e.2 from by simp [lookupA]]
        simp [he]
      · rw [show lookupA name (e :: rest) = lookupA name rest from by
            simp [lookupA, hk]]
        exact ih hnd'
    · rw [hstep, if_neg he]
      by_cases hk : e.1 = name
      · subst hk
        rw [show lookupA e.1 ((e.1, percentileSet e.2) :: playerPercentiles rest)
              = some (percentileSet e.2) from by simp [lookupA],
            show lookupA e.1 (e :: rest) = some e.2 from by simp [lookupA]]
        simp [he]
      · rw [show lookupA name ((e.1, percentileSet e.2) :: playerPercentiles rest)
              = lookupA name (playerPercentiles rest) from by simp [lookupA, hk],
            show lookupA name (e :: rest) = lookupA name rest from by
              simp [lookupA, hk]]
        exact ih hnd'

/-- Witness for C7 (amended): on the concrete input with player `a` holding
two values and player `b` holding none, `b` is absent from the summary and
`a` receives its percentile set. -/
theorem playerPercentiles_lookup_witness :
    lookupA "b" (playerPercentiles [("a", [1, 3]), ("b", [])]) = none ∧
    lookupA "a" (playerPercentiles [("a", [1, 3]), ("b", [])])
      = some (percentileSet [1, 3]) := by
  have hb := playerPercentiles_lookup [("a", [1, 3]), ("b", [])] "b" (by decide)
  have ha := playerPercentiles_lookup [("a", [1, 3]), ("b", [])] "a" (by decide)
  exact ⟨hb.trans rfl, ha.trans rfl⟩

end NflSummary

namespace Tennis

theorem simulateTieBreakGo_sound :
    ∀ (ps : List Bool) (p1 p2 : Nat) (w : Bool) (a b : Nat),
      simulateTieBreakGo p1 p2 ps = some (w, a, b) →
      (7 ≤ a ∨ 7 ≤ b) ∧ 2 ≤ ((a : ℤ) - (b : ℤ)).natAbs ∧ w = decide (b < a) := by
  intro ps
  induction ps with
  | nil =>
    intro p1 p2 w a b h
    exact absurd h (by simp [simulateTieBreakGo])
  | cons x rest ih =>
    intro p1 p2 w a b h
    simp only [simulateTieBreakGo] at h
    generalize (if x = true then p1 + 1 else p1) = q1 at h
    generalize (if x = true then p2 else p2 + 1) = q2 at h
    split at h
    · rename_i hc
      injection h with h
      injection h with hw h
      injection h with ha hb
      subst hw; subst ha; subst hb
      exact ⟨hc.1, hc.2, rfl⟩
    · exact ih _ _ w a b h

theorem simulateSetGo_sound :
    ∀ (gs : List GameDraw) (serverId : Bool) (p1 p2 : Nat) (acc : List Bool)
      (clean : Bool) (aAcc dAcc : Nat) (tb : List Bool) (r : SetResult),
      simulateSetGo serverId p1 p2 acc clean aAcc dAcc gs tb = some r →
      (r.tieBreak = none ∧ 6 ≤ winnerGames r ∧ loserGames r + 2 ≤ winnerGames r) ∨
      (∃ a b : Nat, r.tieBreak = some (r.setWinner, a, b) ∧
        winnerGames r = 7 ∧ loserGames r = 6 ∧
        7 ≤ (if r.setWinner then a else b) ∧
        (if r.setWinner then b else a) + 2 ≤ (if r.setWinner then a else b)) := by
  intro gs
  induction gs with
  | nil =>
    intro sid p1 p2 acc clean aAcc dAcc tb r h
    exact absurd h (by simp [simulateSetGo])
  | cons g rest ih =>
    intro sid p1 p2 acc clean aAcc dAcc tb r h
    simp only [simulateSetGo] at h
    generalize (if g.winner = true then p1 + 1 else p1) = q1 at h
    generalize (if g.winner = true then p2 else p2 + 1) = q2 at h
    generalize (if g.winner = true then clean else false) = qc at h
    split at h
    · rename_i hc
      injection h with h
      subst h
      obtain ⟨h6, hm⟩ := hc
      left
      refine ⟨rfl, ?_, ?_⟩ <;>
        · simp only [winnerGames, loserGames]
          split_ifs with hw <;> rw [decide_eq_true_eq] at hw <;> omega
    · rename_i hnowin
      split at h
      · rename_i hc66
        obtain ⟨h16, h26⟩ := hc66
        cases htb : simulateTieBreak tb with
        | none => rw [htb] at h; exact absurd h (by simp)
        | some wab =>
          obtain ⟨w, a, b⟩ := wab
          rw [htb] at h
          have hsound := simulateTieBreakGo_sound tb 0 0 w a b htb
          obtain ⟨h7, hmab, hw⟩ := hsound
          injection h with h
          subst h
          right
          refine ⟨a, b, ?_⟩
          subst h16
          subst h26
          cases w with
          | true =>
            have hba : b < a := of_decide_eq_true hw.symm
            exact ⟨rfl, rfl, rfl, by simp; omega, by simp; omega⟩
          | false =>
            have hba : ¬ b < a := of_decide_eq_false hw.symm
            exact ⟨rfl, rfl, rfl, by simp; omega, by simp; omega⟩
      · exact ih _ _ _ _ _ _ _ _ _ h

/-- C1: for every set result the state machine returns — over every possible
sequence of game outcomes and tie-break point outcomes — either the set was
won without a tie-break, with the winner on at least 6 games and a margin of
at least 2, or the games reached 6–6 and the set went to the winner of a
tie-break played to at least 7 points with a margin of at least 2. -/
theorem simulateSet_win_condition (serverId : Bool) (gs : List GameDraw)
    (tb : List Bool) (r : SetResult)
    (h : simulateSet serverId gs tb = some r) :
    (r.tieBreak = none ∧ 6 ≤ winnerGames r ∧ loserGames r + 2 ≤ winnerGames r) ∨
    (∃ a b : Nat, r.tieBreak = some (r.setWinner, a, b) ∧
      winnerGames r = 7 ∧ loserGames r = 6 ∧
      7 ≤ (if r.setWinner then a else b) ∧
      (if r.setWinner then b else a) + 2 ≤ (if r.setWinner then a else b)) :=
  simulateSetGo_sound gs serverId 0 0 [] true 0 0 tb r h

/-- Witness for C1: six straight player-1 games give a 6–0 set satisfying
the win condition. -/
theorem simulateSet_win_condition_witness :
    (sampleSetResult.tieBreak = none ∧ 6 ≤ winnerGames sampleSetResult ∧
      loserGames sampleSetResult + 2 ≤ winnerGames sampleSetResult) ∨
    (∃ a b : Nat, sampleSetResult.tieBreak = some (sampleSetResult.setWinner, a, b) ∧
      winnerGames sampleSetResult = 7 ∧ loserGames sampleSetResult = 6 ∧
      7 ≤ (if sampleSetResult.setWinner then a else b) ∧
      (if sampleSetResult.setWinner then b else a) + 2
        ≤ (if sampleSetResult.setWinner then a else b)) :=
  simulateSet_win_condition true (List.replicate 6 ⟨true, 0, 0⟩) []
    sampleSetResult (by decide)

theorem updSets_counts (c : FantasyCounts) (won : Bool) :
    (updSets c won).breaks = c.breaks ∧ (updSets c won).gamesWon = c.gamesWon ∧
    (updSets c won).aces = c.aces ∧ (updSets c won).doubleFaults = c.doubleFaults := by
  cases won <;> exact ⟨rfl, rfl, rfl, rfl⟩

theorem updGames_counts (c : FantasyCounts) (gw gl : Nat) :
    (updGames c gw gl).breaks = c.breaks ∧
    (updGames c gw gl).gamesWon = c.gamesWon + gw ∧
    (updGames c gw gl).aces = c.aces ∧
    (updGames c gw gl).doubleFaults = c.doubleFaults :=
  ⟨rfl, rfl, rfl, rfl⟩

theorem updBreaks_counts (c : FantasyCounts) (gw : Nat) :
    (updBreaks c gw).breaks = c.breaks + gw ∧
    (updBreaks c gw).gamesWon = c.gamesWon ∧
    (updBreaks c gw).aces = c.aces ∧
    (updBreaks c gw).doubleFaults = c.doubleFaults :=
  ⟨rfl, rfl, rfl, rfl⟩

theorem updAcesFaults_counts (c : FantasyCounts) (won : Bool) (a d : Nat) :
    (updAcesFaults c won a d).breaks = c.breaks ∧
    (updAcesFaults c won a d).gamesWon = c.gamesWon ∧
    (updAcesFaults c won a d).aces = c.aces + (if won then a else 0) ∧
    (updAcesFaults c won a d).doubleFaults
      = c.doubleFaults + (if won then d else 0) :=
  ⟨rfl, rfl, rfl, rfl⟩

theorem updNoDoubleFault_counts (c : FantasyCounts) (won : Bool) (d : Nat) :
    (updNoDoubleFault c won d).breaks = c.breaks ∧
    (updNoDoubleFault c won d).gamesWon = c.gamesWon ∧
    (updNoDoubleFault c won d).aces = c.aces ∧
    (updNoDoubleFault c won d).doubleFaults = c.doubleFaults := by
  unfold updNoDoubleFault
  split_ifs <;> exact ⟨rfl, rfl, rfl, rfl⟩

theorem updAceBonus_counts (c : FantasyCounts) :
    (updAceBonus c).breaks = c.breaks ∧
    (updAceBonus c).gamesWon = c.gamesWon ∧
    (updAceBonus c).aces = c.aces ∧
    (updAceBonus c).doubleFaults = c.doubleFaults := by
  unfold updAceBonus
  split_ifs <;> exact ⟨rfl, rfl, rfl, rfl⟩

theorem updCleanSet_counts (c : FantasyCounts) (cl won : Bool) :
    (updCleanSet c cl won).breaks = c.breaks ∧
    (updCleanSet c cl won).gamesWon = c.gamesWon ∧
    (updCleanSet c cl won).aces = c.aces ∧
    (updCleanSet c cl won).doubleFaults = c.doubleFaults := by
  unfold updCleanSet
  split_ifs <;> exact ⟨rfl, rfl, rfl, rfl⟩

theorem updateCountsOneSide_breaks (c : FantasyCounts) (won : Bool)
    (gw gl setAces setDfs : Nat) (setClean : Bool) :
    (updateCountsOneSide c won gw gl setAces setDfs setClean).breaks
      = c.breaks + gw := by
  simp [updateCountsOneSide, updSets_counts, updGames_counts, updBreaks_counts,
    updAcesFaults_counts, updNoDoubleFault_counts, updAceBonus_counts,
    updCleanSet_counts]

theorem updateCountsOneSide_gamesWon (c : FantasyCounts) (won : Bool)
    (gw gl setAces setDfs : Nat) (setClean : Bool) :
    (updateCountsOneSide c won gw gl setAces setDfs setClean).gamesWon
      = c.gamesWon + gw := by
  simp [updateCountsOneSide, updSets_counts, updGames_counts, updBreaks_counts,
    updAcesFaults_counts, updNoDoubleFault_counts, updAceBonus_counts,
    updCleanSet_counts]

theorem updateCountsOneSide_aces (c : FantasyCounts) (won : Bool)
    (gw gl setAces setDfs : Nat) (setClean : Bool) :
    (updateCountsOneSide c won gw gl setAces setDfs setClean).aces
      = c.aces + (if won then setAces else 0) := by
  simp [updateCountsOneSide, updSets_counts, updGames_counts, updBreaks_counts,
    updAcesFaults_counts, updNoDoubleFault_counts, updAceBonus_counts,
    updCleanSet_counts]

theorem updateCountsOneSide_doubleFaults (c : FantasyCounts) (won : Bool)
    (gw gl setAces setDfs : Nat) (setClean : Bool) :
    (updateCountsOneSide c won gw gl setAces setDfs setClean).doubleFaults
      = c.doubleFaults + (if won then setDfs else 0) := by
  simp [updateCountsOneSide, updSets_counts, updGames_counts, updBreaks_counts,
    updAcesFaults_counts, updNoDoubleFault_counts, updAceBonus_counts,
    updCleanSet_counts]

/-- C10: the per-set statistics update adds the whole set's ace count and
double-fault count to the set winner's cumulative statistics only; the set
loser's ace and double-fault counts are unchanged. -/
theorem set_aces_faults_to_winner_only (c1 c2 : FantasyCounts) (r : SetResult) :
    ((updateAfterSet c1 c2 r).1.aces,
     (updateAfterSet c1 c2 r).1.doubleFaults,
     (updateAfterSet c1 c2 r).2.aces,
     (updateAfterSet c1 c2 r).2.doubleFaults)
      = if r.setWinner then
          (c1.aces + r.aces, c1.doubleFaults + r.doubleFaults,
           c2.aces, c2.doubleFaults)
        else
          (c1.aces, c1.doubleFaults,
           c2.aces + r.aces, c2.doubleFaults + r.doubleFaults) := by
  simp only [updateAfterSet, updateCountsOneSide_aces,
    updateCountsOneSide_doubleFaults]
  cases hw : r.setWinner <;> simp [hw]

theorem updateAfterSet_breaks_gamesWon (c1 c2 : FantasyCounts) (r : SetResult) :
    (updateAfterSet c1 c2 r).1.breaks = c1.breaks + r.games.count true ∧
    (updateAfterSet c1 c2 r).1.gamesWon = c1.gamesWon + r.games.count true ∧
    (updateAfterSet c1 c2 r).2.breaks = c2.breaks + r.games.count false ∧
    (updateAfterSet c1 c2 r).2.gamesWon = c2.gamesWon + r.games.count false := by
  exact ⟨updateCountsOneSide_breaks .., updateCountsOneSide_gamesWon ..,
    updateCountsOneSide_breaks .., updateCountsOneSide_gamesWon ..⟩

theorem simulateMatchGo_breaks :
    ∀ (oracle : List (List GameDraw × List Bool)) (bo : Nat) (sid : Bool)
      (s1 s2 : Nat) (c1 c2 : FantasyCounts) (acc : List SetResult)
      (res : MatchResult),
      c1.breaks = c1.gamesWon → c2.breaks = c2.gamesWon →
      simulateMatchGo bo sid s1 s2 c1 c2 acc oracle = some res →
      res.counts1.breaks = res.counts1.gamesWon ∧
      res.counts2.breaks = res.counts2.gamesWon := by
  intro oracle
  induction oracle with
  | nil =>
    intro bo sid s1 s2 c1 c2 acc res h1 h2 h
    exact absurd h (by simp [simulateMatchGo])
  | cons o rest ih =>
    intro bo sid s1 s2 c1 c2 acc res h1 h2 h
    obtain ⟨gs, tb⟩ := o
    simp only [simulateMatchGo] at h
    split at h
    · exact absurd h (by simp)
    · rename_i r heq
      obtain ⟨hb1, hg1, hb2, hg2⟩ := updateAfterSet_breaks_gamesWon c1 c2 r
      generalize (if r.setWinner = true then s1 + 1 else s1) = t1 at h
      generalize (if r.setWinner = true then s2 else s2 + 1) = t2 at h
      split at h
      · injection h with h
        subst h
        constructor
        · dsimp only
          split_ifs <;> (try dsimp only) <;> omega
        · dsimp only
          split_ifs <;> (try dsimp only) <;> omega
      · exact ih bo (!sid) _ _ _ _ _ res (by omega) (by omega) h

/-- C5 (amended): in every completed match, each player's cumulative Breaks
statistic equals that player's cumulative GamesWon statistic — the code adds
every game a player won (including a won tie-break, which is appended to the
set's game list), not only games won while the opponent was serving. -/
theorem match_breaks_eq_gamesWon (best_of : Nat)
    (oracle : List (List GameDraw × List Bool)) (res : MatchResult)
    (h : simulateMatch best_of oracle = some res) :
    res.counts1.breaks = res.counts1.gamesWon ∧
    res.counts2.breaks = res.counts2.gamesWon :=
  simulateMatchGo_breaks oracle best_of true 0 0 {} {} [] res rfl rfl h

/-- Witness for C5 (amended): the two-set sample match, in which player 1
wins all twelve games; both Breaks counts equal the GamesWon counts. -/
theorem match_breaks_eq_gamesWon_witness :
    sampleMatchResult.counts1.breaks = sampleMatchResult.counts1.gamesWon ∧
    sampleMatchResult.counts2.breaks = sampleMatchResult.counts2.gamesWon :=
  match_breaks_eq_gamesWon 3 sampleMatchOracle sampleMatchResult (by decide)

/-- C5 counterexample: in the sample match player 1 wins all twelve games,
six of them on serve; the cumulative Breaks statistic is 12, while the
number of games won while the opponent was serving is 6 — so Breaks does not
equal games won while serving against. -/
theorem match_breaks_counterexample :
    (simulateMatch 3 sampleMatchOracle).map
        (fun res => (res.counts1.breaks, matchGamesWonOnReturn res.sets true))
      = some (12, 6) ∧ (12 : Nat) ≠ 6 :=
  ⟨by decide, by decide⟩

end Tennis
